import Mathlib

/-!
Verification of the warehouse-optimization pipeline
(`warehouseoptimization.py`): a shallow embedding of the decoded-JSON
data model, the `DataValidator` class, and the `WarehouseOptimizer`
class (ABC analysis, distance / financial / inventory metrics, report
assembly, and the `run` pipeline), together with theorems settling the
spec claims.

Numeric convention: Python numbers (int/float) are embedded as exact
rationals `ℚ`; `math.sqrt`/`math.ceil` are embedded through the
executable `ceilSqrtNat` and related to `Real.sqrt` by theorem.
Python exceptions are modelled with `Except PyErr`.
-/

set_option maxHeartbeats 1000000

/-- A decoded JSON value, as produced by Python `json.load`.
Objects keep key order (Python dicts are insertion ordered). -/
inductive JValue where
  | null
  | bool (b : Bool)
  | num (q : ℚ)
  | str (s : String)
  | arr (items : List JValue)
  | obj (fields : List (String × JValue))

namespace JValue

/-- Python `isinstance(v, list)`. -/
def isList : JValue → Bool
  | .arr _ => true
  | _ => false

/-- Python `isinstance(v, dict)`. -/
def isDict : JValue → Bool
  | .obj _ => true
  | _ => false

/-- Python `isinstance(v, (int, float))`.  Note Python `bool` is a
subclass of `int`, so booleans count as numeric. -/
def isNumeric : JValue → Bool
  | .num _ => true
  | .bool _ => true
  | _ => false

def isStr : JValue → Bool
  | .str _ => true
  | _ => false

/-- Numeric value of a numeric JValue (`True = 1`, `False = 0`). -/
def numVal : JValue → ℚ
  | .num q => q
  | .bool b => if b then 1 else 0
  | _ => 0

/-- First-match lookup of a key in an object's fields. -/
def lookupField (k : String) : List (String × JValue) → Option JValue
  | [] => none
  | kv :: rest => if kv.1 = k then some kv.2 else lookupField k rest

/-- Python `d.get(k)` (as an `Option`); `none` when `v` has no such key. -/
def getOpt (v : JValue) (k : String) : Option JValue :=
  match v with
  | .obj fields => lookupField k fields
  | _ => none

/-- Python `d.get(k, default)` on a dict. -/
def getD (v : JValue) (k : String) (default : JValue) : JValue :=
  (v.getOpt k).getD default

/-- Python `k in d` for a dict `d`. -/
def hasKey (v : JValue) (k : String) : Bool :=
  (v.getOpt k).isSome

end JValue

/-- Python `str(v)`, as interpolated into f-strings.  Only the string
case is exercised by any theorem below (the validated inputs carry
string SKUs); the remaining renderings are best-effort. -/
def pyStrOf : JValue → String
  | .str s => s
  | .null => "None"
  | .bool true => "True"
  | .bool false => "False"
  | .num q => toString q
  | .arr _ => "[...]"
  | .obj _ => "\x7b...\x7d"

/-- A Python exception escaping a statement. -/
inductive PyErr where
  | keyError (key : String)
  | typeError
deriving DecidableEq

/-- Python `a >= b`: defined for two numbers or two strings, raises
`TypeError` otherwise. -/
def pyGe (a b : JValue) : Except PyErr Bool :=
  if a.isNumeric ∧ b.isNumeric then pure (b.numVal ≤ a.numVal)
  else match a, b with
    | .str sa, .str sb => pure (sb ≤ sa)
    | _, _ => throw .typeError

/-- Python short-circuit `and` over a Bool guard and a possibly
raising right operand. -/
def pyAnd (a : Bool) (b : Unit → Except PyErr Bool) : Except PyErr Bool :=
  if a then b () else pure false

-- =====================================================================
-- DataValidator
-- =====================================================================

namespace DataValidator

/-- The top-level format error message. -/
def formatErrorMsg : String := "Invalid data format: Expected a JSON list."

/-- `f"Product at index {i} is not a dictionary."` -/
def notDictMsg (i : ℕ) : String :=
  "Product at index " ++ toString i ++ " is not a dictionary."

/-- `f"Product at index {i} is missing required key: '{key}'."` -/
def missingKeyMsg (i : ℕ) (key : String) : String :=
  "Product at index " ++ toString i ++ " is missing required key: \x27" ++ key ++ "\x27."

/-- `f"Invalid '{field}' for SKU '{sku}' at index {index}."` -/
def invalidFieldMsg (fieldName sku : String) (index : ℕ) : String :=
  "Invalid \x27" ++ fieldName ++ "\x27 for SKU \x27" ++ sku ++ "\x27 at index " ++ toString index ++ "."

def required_keys : List String :=
  ["sku", "product_name", "frequency", "category", "dimensions_cm", "weight_kg", "unit_cost"]

/-- `product.get('sku', 'N/A')` as rendered into the message. -/
def skuDisplay (product : JValue) : String :=
  match product.getOpt "sku" with
  | none => "N/A"
  | some v => pyStrOf v

/-- `isinstance(x, (int, float)) and x >= 0`, with Python's
short-circuit (the comparison is only evaluated when the
`isinstance` guard passed, so it cannot raise). -/
def numericNonNeg (x : JValue) : Except PyErr Bool :=
  pyAnd x.isNumeric (fun _ => pyGe x (.num 0))

/-- `DataValidator._validate_numerical_fields` for one product. -/
def validate_numerical_fields (product : JValue) (index : ℕ) :
    Except PyErr (List String) := do
  let frequency := product.getD "frequency" (.num (-1))
  let unit_cost := product.getD "unit_cost" (.num (-1))
  let weight := product.getD "weight_kg" (.num (-1))
  let dims := product.getD "dimensions_cm" (.obj [])
  let sku := skuDisplay product
  let okFreq ← numericNonNeg frequency
  let okCost ← numericNonNeg unit_cost
  let okWeight ← numericNonNeg weight
  let okDims := dims.isDict && (["length", "width", "height"].all fun k => dims.hasKey k)
  pure <|
    (if ¬okFreq then [invalidFieldMsg "frequency" sku index] else []) ++
    (if ¬okCost then [invalidFieldMsg "unit_cost" sku index] else []) ++
    (if ¬okWeight then [invalidFieldMsg "weight_kg" sku index] else []) ++
    (if ¬okDims then [invalidFieldMsg "dimensions_cm" sku index] else [])

/-- The loop body of `DataValidator._check_product_fields` for the
product at position `i`: the `continue` on a non-dict skips both the
missing-key checks and the numerical checks. -/
def recordErrors (i : ℕ) (product : JValue) : Except PyErr (List String) :=
  if ¬product.isDict then pure [notDictMsg i]
  else do
    let missing := required_keys.filterMap fun k =>
      if product.hasKey k then none else some (missingKeyMsg i k)
    let numeric ← validate_numerical_fields product i
    pure (missing ++ numeric)

/-- `DataValidator._check_product_fields`: `for i, product in
enumerate(self.data)`, accumulating errors; `i` starts at `start`. -/
def check_product_fields (start : ℕ) : List JValue → Except PyErr (List String)
  | [] => pure []
  | product :: rest => do
    let here ← recordErrors start product
    let later ← check_product_fields (start + 1) rest
    pure (here ++ later)

/-- `DataValidator._check_overall_format`. -/
def check_overall_format (data : JValue) : List String :=
  if ¬data.isList then [formatErrorMsg] else []

/-- `DataValidator.validate_all`: run the container check; run the
per-record checks only when no error was recorded. -/
def validate_all (data : JValue) : Except PyErr (List String) := do
  let errors := check_overall_format data
  if errors = [] then
    match data with
    | .arr items => check_product_fields 0 items
    | _ => pure errors
  else
    pure errors

end DataValidator

-- =====================================================================
-- Configuration & Global Constants
-- =====================================================================

def WALKING_SPEED_MPS : ℚ := 12/10

def LABOR_COST_PER_HOUR : ℚ := 45/2

def HOURS_PER_YEAR : ℚ := 2080

def A_CATEGORY_PERCENTAGE : ℚ := 80/100

def B_CATEGORY_PERCENTAGE : ℚ := 95/100

def ZONE_A_DISTANCE_M : ℚ := 5

def ZONE_B_DISTANCE_M : ℚ := 15

def ZONE_C_DISTANCE_M : ℚ := 30

def ANNUAL_HOLDING_COST_PERCENTAGE : ℚ := 15/100

def COST_PER_ORDER : ℚ := 50

def SERVICE_LEVEL : ℚ := 95/100

def DEMAND_VARIABILITY_FACTOR : ℚ := 2/10

-- =====================================================================
-- Typed product records (the shape guaranteed by a passing validation)
-- =====================================================================

structure Dimensions where
  length : ℚ
  width : ℚ
  height : ℚ
deriving DecidableEq, Inhabited

structure Product where
  sku : String
  product_name : String
  frequency : ℚ
  category : String
  dimensions_cm : Dimensions
  weight_kg : ℚ
  unit_cost : ℚ
deriving DecidableEq, Inhabited

/-- Reading one validated record into a `Product` (the raw dict is kept
by the source; field accesses `p['...']` never fail on validated data,
so the defaults below are never exercised on the pipeline's paths). -/
def toProduct (v : JValue) : Product where
  sku := pyStrOf (v.getD "sku" .null)
  product_name := pyStrOf (v.getD "product_name" .null)
  frequency := (v.getD "frequency" .null).numVal
  category := pyStrOf (v.getD "category" .null)
  dimensions_cm :=
    let d := v.getD "dimensions_cm" (.obj [])
    { length := (d.getD "length" .null).numVal
      width := (d.getD "width" .null).numVal
      height := (d.getD "height" .null).numVal }
  weight_kg := (v.getD "weight_kg" .null).numVal
  unit_cost := (v.getD "unit_cost" .null).numVal

/-- `math.ceil (math.sqrt q)` for an exact rational `q`, executably:
the least `n : ℕ` with `q ≤ n ^ 2` (see `ceilSqrtNat_eq_ceil_sqrt`). -/
theorem ceilSqrt_exists (q : ℚ) : ∃ n : ℕ, q ≤ (n : ℚ) ^ 2 :=
  ⟨⌈q⌉₊, le_trans (Nat.le_ceil q) (by exact_mod_cast Nat.le_self_pow two_ne_zero _)⟩

def ceilSqrtNat (q : ℚ) : ℕ := Nat.find (ceilSqrt_exists q)

-- =====================================================================
-- WarehouseOptimizer
-- =====================================================================

namespace WarehouseOptimizer

/-- `WarehouseOptimizer.load_data`, from the decoded value onward (the
file read and the JSON parse already succeeded): when the validator
reports any error, `self.products` is left empty. -/
def load_data (data : JValue) : Except PyErr (List Product) := do
  let errors ← DataValidator.validate_all data
  if errors = [] then
    match data with
    | .arr items => pure (items.map toProduct)
    | _ => pure []
  else pure []

structure Categories where
  categoryA : List Product
  categoryB : List Product
  categoryC : List Product
deriving DecidableEq

/-- `sorted(..., key=lambda p: p['frequency'], reverse=True)` is a
stable descending sort; `mergeSort` with this comparison is the same
permutation (stable, ties keep original order). -/
def freqDesc (a b : Product) : Bool := decide (b.frequency ≤ a.frequency)

/-- The categorisation loop of `run_abc_analysis`: walk the sorted
list accumulating `current_percentage` and append each product to the
bucket selected by the two threshold tests. -/
def classifyLoop (total_frequency : ℚ) :
    List Product → ℚ → List Product × List Product × List Product
  | [], _ => ([], [], [])
  | p :: rest, current_percentage =>
    let item_percentage := p.frequency / total_frequency
    let current2 := current_percentage + item_percentage
    let res := classifyLoop total_frequency rest current2
    if current2 ≤ A_CATEGORY_PERCENTAGE then (p :: res.1, res.2.1, res.2.2)
    else if current2 ≤ B_CATEGORY_PERCENTAGE then (res.1, p :: res.2.1, res.2.2)
    else (res.1, res.2.1, p :: res.2.2)

/-- `WarehouseOptimizer.run_abc_analysis`; `none` models the early
returns that leave `self.categories` as the empty dict. -/
def run_abc_analysis (products : List Product) : Option Categories :=
  if products = [] then none
  else
    let total_frequency := (products.map Product.frequency).sum
    if total_frequency = 0 then none
    else
      let sorted_products := products.mergeSort freqDesc
      let res := classifyLoop total_frequency sorted_products 0
      some ⟨res.1, res.2.1, res.2.2⟩

structure DistanceMetrics where
  original_distance : ℚ
  optimized_distance : ℚ
  distance_saved : ℚ
  efficiency_improvement : ℚ
deriving DecidableEq

/-- `sum((i + 1) * 2 * p['frequency'] for i, p in enumerate(...))`,
with the enumeration starting at `k`. -/
def original_distance_from (k : ℕ) : List Product → ℚ
  | [] => 0
  | p :: rest => ((k : ℚ) + 1) * 2 * p.frequency + original_distance_from (k + 1) rest

/-- `sum(p['frequency'] * zone_distance for p in bucket)`. -/
def zoneSum (zone_distance : ℚ) (bucket : List Product) : ℚ :=
  (bucket.map fun p => p.frequency * zone_distance).sum

/-- `WarehouseOptimizer._calculate_distance_metrics`, given that
`self.categories` holds the three buckets. -/
def calc_distance_metrics (products : List Product) (categories : Categories) :
    DistanceMetrics :=
  let original_distance := original_distance_from 0 products
  let optimized_distance :=
    zoneSum ZONE_A_DISTANCE_M categories.categoryA +
    zoneSum ZONE_B_DISTANCE_M categories.categoryB +
    zoneSum ZONE_C_DISTANCE_M categories.categoryC
  let distance_saved := original_distance - optimized_distance
  let efficiency_improvement :=
    if 0 < original_distance then distance_saved / original_distance * 100 else 0
  ⟨original_distance, optimized_distance, distance_saved, efficiency_improvement⟩

/-- `_calculate_distance_metrics` as executed by the pipeline:
`self.categories['categoryA']` raises `KeyError('categoryA')` when
`run_abc_analysis` returned early, leaving the empty dict. -/
def calc_distance_metrics_run (products : List Product) :
    Option Categories → Except PyErr DistanceMetrics
  | none => throw (.keyError "categoryA")
  | some categories => pure (calc_distance_metrics products categories)

structure FinancialMetrics where
  original_time_hours : ℚ
  optimized_time_hours : ℚ
  original_cost : ℚ
  optimized_cost : ℚ
  cost_saved : ℚ
  time_saved_hours : ℚ
deriving DecidableEq

/-- `WarehouseOptimizer._calculate_financial_metrics`. -/
def calc_financial_metrics (dm : DistanceMetrics) : FinancialMetrics :=
  let original_time_hours := dm.original_distance / (WALKING_SPEED_MPS * 3600)
  let optimized_time_hours := dm.optimized_distance / (WALKING_SPEED_MPS * 3600)
  let original_cost := original_time_hours * LABOR_COST_PER_HOUR
  let optimized_cost := optimized_time_hours * LABOR_COST_PER_HOUR
  ⟨original_time_hours, optimized_time_hours, original_cost, optimized_cost,
    original_cost - optimized_cost, original_time_hours - optimized_time_hours⟩

structure InventoryEntry where
  eoq : ℕ
  safety_stock : ℕ
deriving DecidableEq

/-- The loop body of `_calculate_inventory_metrics` for one product:
EOQ and safety stock, both `math.ceil`-ed (see `ceilSqrtNat`). -/
def inventoryFor (p : Product) : InventoryEntry :=
  let D := p.frequency
  let S := COST_PER_ORDER
  let H := p.unit_cost * ANNUAL_HOLDING_COST_PERCENTAGE
  let eoq := if 0 < H then ceilSqrtNat ((2 * D * S) / H) else 0
  let demand_std_dev_daily := (p.frequency / 365) * DEMAND_VARIABILITY_FACTOR
  let service_level_z_score : ℚ := 1645/1000
  let safety_stock := ceilSqrtNat (7 * (service_level_z_score * demand_std_dev_daily) ^ 2)
  ⟨eoq, safety_stock⟩

/-- Assignment `d[k] = v` on an insertion-ordered Python dict. -/
def dictInsert {α : Type} (m : List (String × α)) (k : String) (v : α) :
    List (String × α) :=
  if m.any fun kv => kv.1 = k then m.map fun kv => if kv.1 = k then (k, v) else kv
  else m ++ [(k, v)]

/-- `WarehouseOptimizer._calculate_inventory_metrics`: one dict entry
per product, keyed by SKU, last write wins. -/
def calc_inventory_metrics (products : List Product) : List (String × InventoryEntry) :=
  products.foldl (fun m p => dictInsert m p.sku (inventoryFor p)) []

/-- `sorted(self.products, key=lambda p: p['sku'])`. -/
def skuAsc (a b : Product) : Bool := decide (a.sku ≤ b.sku)

structure Report where
  distance_metrics : DistanceMetrics
  financial_metrics : FinancialMetrics
  abc_analysis : Categories
  inventory_metrics : List (String × InventoryEntry)
  layout_original : List Product
  layout_optimized : Categories
deriving DecidableEq

/-- `WarehouseOptimizer._create_results_data_for_json`.  `categories`
is `none` when `self.categories` is still the empty dict, in which
case each `self.categories.get(key, [])` yields `[]`. -/
def create_results_data (products : List Product) (categories : Option Categories)
    (dm : DistanceMetrics) (fm : FinancialMetrics)
    (inventory_metrics : List (String × InventoryEntry)) : Report where
  distance_metrics := dm
  financial_metrics := fm
  abc_analysis :=
    ⟨(categories.map Categories.categoryA).getD [],
     (categories.map Categories.categoryB).getD [],
     (categories.map Categories.categoryC).getD []⟩
  inventory_metrics := inventory_metrics
  layout_original := products.mergeSort skuAsc
  layout_optimized :=
    ⟨(categories.map Categories.categoryA).getD [],
     (categories.map Categories.categoryB).getD [],
     (categories.map Categories.categoryC).getD []⟩

/-- `WarehouseOptimizer.run`, from the decoded input value onward.
`Except.ok none`: clean return, no output file written.
`Except.ok (some r)`: successful run, report `r` written.
`Except.error e`: a Python exception escaped `run`. -/
def run (data : JValue) : Except PyErr (Option Report) := do
  let products ← load_data data
  if products = [] then pure none
  else
    let categories := run_abc_analysis products
    let dm ← calc_distance_metrics_run products categories
    let fm := calc_financial_metrics dm
    let inventory_metrics := calc_inventory_metrics products
    pure (some (create_results_data products categories dm fm inventory_metrics))

end WarehouseOptimizer

-- =====================================================================
-- Pure mirrors of the validator (the validator never raises; the
-- bridge lemmas below prove it) and spec-side reference definitions
-- =====================================================================

namespace DataValidator

/-- Pure value of `isinstance(x, (int, float)) and x >= 0`. -/
def numericOkB (x : JValue) : Bool := x.isNumeric && decide (0 ≤ x.numVal)

/-- Pure mirror of `validate_numerical_fields`. -/
def validate_numerical_fieldsP (product : JValue) (index : ℕ) : List String :=
  let frequency := product.getD "frequency" (.num (-1))
  let unit_cost := product.getD "unit_cost" (.num (-1))
  let weight := product.getD "weight_kg" (.num (-1))
  let dims := product.getD "dimensions_cm" (.obj [])
  let sku := skuDisplay product
  let okDims := dims.isDict && (["length", "width", "height"].all fun k => dims.hasKey k)
  (if ¬numericOkB frequency then [invalidFieldMsg "frequency" sku index] else []) ++
  (if ¬numericOkB unit_cost then [invalidFieldMsg "unit_cost" sku index] else []) ++
  (if ¬numericOkB weight then [invalidFieldMsg "weight_kg" sku index] else []) ++
  (if ¬okDims then [invalidFieldMsg "dimensions_cm" sku index] else [])

/-- Pure mirror of `recordErrors`. -/
def recordErrorsP (i : ℕ) (product : JValue) : List String :=
  if ¬product.isDict then [notDictMsg i]
  else
    (required_keys.filterMap fun k =>
      if product.hasKey k then none else some (missingKeyMsg i k)) ++
    validate_numerical_fieldsP product i

/-- Pure mirror of `check_product_fields`. -/
def check_product_fieldsP (start : ℕ) : List JValue → List String
  | [] => []
  | product :: rest => recordErrorsP start product ++ check_product_fieldsP (start + 1) rest

/-- Pure mirror of `validate_all`. -/
def validate_allP (data : JValue) : List String :=
  let errors := check_overall_format data
  if errors = [] then
    match data with
    | .arr items => check_product_fieldsP 0 items
    | _ => errors
  else errors

end DataValidator

namespace WarehouseOptimizer

/-- Reference (spec-side): cumulative frequency share of `l` up to and
including position `i`, against total `total`. -/
def cumShare (l : List Product) (total : ℚ) (i : ℕ) : ℚ :=
  ((l.take (i + 1)).map Product.frequency).sum / total

/-- Reference (spec-side): the elements of a list whose 0-based
position satisfies `P`, in order. -/
def filterIdx {α : Type} (P : ℕ → Bool) : List α → List α
  | [] => []
  | x :: xs => (if P 0 then [x] else []) ++ filterIdx (fun i => P (i + 1)) xs

end WarehouseOptimizer

/-- The spec's degenerate end-to-end example: a single validated
product with `frequency = 0` and `unit_cost = 10`. -/
def degenerateInput : JValue := .arr [ .obj [
  ("sku", .str "P1"),
  ("product_name", .str "Widget"),
  ("frequency", .num 0),
  ("category", .str "misc"),
  ("dimensions_cm", .obj [("length", .num 10), ("width", .num 5), ("height", .num 2)]),
  ("weight_kg", .num 1),
  ("unit_cost", .num 10)] ]

/-- A concrete product record used in example computations. -/
def sampleProduct (sku : String) (frequency unit_cost : ℚ) : Product where
  sku := sku
  product_name := "item " ++ sku
  frequency := frequency
  category := "general"
  dimensions_cm := ⟨10, 5, 2⟩
  weight_kg := 1
  unit_cost := unit_cost

-- =====================================================================
-- Validator: bridge lemmas (the Except-level validator never raises
-- and agrees with its pure mirror)
-- =====================================================================

namespace DataValidator

theorem numericNonNeg_eq (x : JValue) : numericNonNeg x = pure (numericOkB x) := by
  cases x <;>
    simp [numericNonNeg, pyAnd, pyGe, numericOkB, JValue.isNumeric, JValue.numVal]

theorem validate_numerical_fields_eq (product : JValue) (index : ℕ) :
    validate_numerical_fields product index = pure (validate_numerical_fieldsP product index) := by
  simp [validate_numerical_fields, validate_numerical_fieldsP, numericNonNeg_eq]

theorem recordErrors_eq (i : ℕ) (product : JValue) :
    recordErrors i product = pure (recordErrorsP i product) := by
  by_cases h : product.isDict <;>
    simp [recordErrors, recordErrorsP, h, validate_numerical_fields_eq]

theorem check_product_fields_eq (items : List JValue) :
    ∀ start : ℕ, check_product_fields start items = pure (check_product_fieldsP start items) := by
  induction items with
  | nil => intro start; simp [check_product_fields, check_product_fieldsP]
  | cons p rest ih =>
    intro start
    simp [check_product_fields, check_product_fieldsP, recordErrors_eq, ih]

theorem validate_all_eq (data : JValue) :
    validate_all data = pure (validate_allP data) := by
  cases data <;>
    simp [validate_all, validate_allP, check_overall_format, JValue.isList,
      check_product_fields_eq]

/-- Any error in the per-record check of the record at position `i`
appears in the accumulated error list, whatever the other records are. -/
theorem mem_check_product_fieldsP {msg : String} :
    ∀ (items : List JValue) (start i : ℕ) (h : i < items.length),
      msg ∈ recordErrorsP (start + i) (items.get ⟨i, h⟩) →
      msg ∈ check_product_fieldsP start items := by
  intro items
  induction items with
  | nil => intro start i h; simp at h
  | cons p rest ih =>
    intro start i h hmem
    cases i with
    | zero =>
      simp only [check_product_fieldsP, List.mem_append]
      exact Or.inl (by simpa using hmem)
    | succ j =>
      simp only [check_product_fieldsP, List.mem_append]
      refine Or.inr (ih (start + 1) j (Nat.lt_of_succ_lt_succ h) ?_)
      have : start + 1 + j = start + (j + 1) := by omega
      rw [this]
      simpa using hmem

theorem check_product_fieldsP_append (l2 : List JValue) :
    ∀ (l1 : List JValue) (start : ℕ),
      check_product_fieldsP start (l1 ++ l2) =
        check_product_fieldsP start l1 ++ check_product_fieldsP (start + l1.length) l2 := by
  intro l1
  induction l1 with
  | nil => intro start; simp [check_product_fieldsP]
  | cons p rest ih =>
    intro start
    simp [check_product_fieldsP, ih (start + 1), List.append_assoc]
    ring_nf

end DataValidator

-- =====================================================================
-- Claims about the validator (C4, C5, C9)
-- =====================================================================

/-- C4: for every input whose top level is not a list,
`DataValidator.validate_all` returns exactly one error — the top-level
format error — and runs no per-record check. -/
theorem claim_C4_non_list_single_error (v : JValue) (h : v.isList = false) :
    DataValidator.validate_all v = .ok [DataValidator.formatErrorMsg] := by
  cases v <;>
    simp_all [DataValidator.validate_all, DataValidator.check_overall_format, JValue.isList,
      pure, Except.pure]

/-- Witness for C4 at the concrete non-list input `3`. -/
theorem claim_C4_witness :
    (JValue.num 3).isList = false ∧
    DataValidator.validate_all (.num 3) = .ok [DataValidator.formatErrorMsg] :=
  ⟨rfl, claim_C4_non_list_single_error (.num 3) rfl⟩

/-- C5: per-record errors accumulate across all records (the check of
a list is the concatenation of the checks of its parts, with shifted
indices — no short-circuit), and a record whose `frequency` is missing
or fails the numeric check contributes the invalid-frequency message
naming that record's SKU (`skuDisplay`, which falls back to `"N/A"`)
and its positional index, whatever the other records contain. -/
theorem claim_C5_frequency_error_names_sku_and_index :
    (∀ (start : ℕ) (l1 l2 : List JValue),
        DataValidator.check_product_fieldsP start (l1 ++ l2) =
          DataValidator.check_product_fieldsP start l1 ++
          DataValidator.check_product_fieldsP (start + l1.length) l2) ∧
    (∀ (items : List JValue) (i : ℕ) (h : i < items.length)
        (fields : List (String × JValue)),
        items.get ⟨i, h⟩ = .obj fields →
        ((JValue.obj fields).hasKey "frequency" = false ∨
          DataValidator.numericOkB ((JValue.obj fields).getD "frequency" (.num (-1))) = false) →
        ∃ errs, DataValidator.validate_all (.arr items) = .ok errs ∧
          DataValidator.invalidFieldMsg "frequency"
            (DataValidator.skuDisplay (.obj fields)) i ∈ errs) := by
  constructor
  · intro start l1 l2
    exact DataValidator.check_product_fieldsP_append l2 l1 start
  · intro items i h fields hget hbad
    have hfreq : DataValidator.numericOkB
        ((JValue.obj fields).getD "frequency" (.num (-1))) = false := by
      rcases hbad with hmiss | hbad
      · have : (JValue.obj fields).getOpt "frequency" = none := by
          simpa [JValue.hasKey, Option.isSome_iff_exists] using hmiss
        simp [JValue.getD, this, DataValidator.numericOkB, JValue.isNumeric, JValue.numVal]
      · exact hbad
    refine ⟨DataValidator.check_product_fieldsP 0 items, ?_, ?_⟩
    · rw [DataValidator.validate_all_eq]
      simp [DataValidator.validate_allP, DataValidator.check_overall_format, JValue.isList,
        pure, Except.pure]
    · have hmem : DataValidator.invalidFieldMsg "frequency"
          (DataValidator.skuDisplay (.obj fields)) i ∈
          DataValidator.recordErrorsP (0 + i) (items.get ⟨i, h⟩) := by
        rw [Nat.zero_add, hget]
        simp only [DataValidator.recordErrorsP, JValue.isDict]
        rw [if_neg (by simp)]
        refine List.mem_append.2 (Or.inr ?_)
        simp only [DataValidator.validate_numerical_fieldsP]
        refine List.mem_append.2 (Or.inl ?_)
        refine List.mem_append.2 (Or.inl ?_)
        refine List.mem_append.2 (Or.inl ?_)
        rw [if_pos (by simp [hfreq])]
        exact List.mem_singleton.2 rfl
      exact DataValidator.mem_check_product_fieldsP items 0 i h hmem

/-- Witness for C5: one record whose `frequency` key is absent, SKU
`"S1"`, at index 0. -/
theorem claim_C5_witness :
    DataValidator.check_product_fieldsP 0 ([.num 1] ++ [.num 2]) =
      DataValidator.check_product_fieldsP 0 [.num 1] ++
      DataValidator.check_product_fieldsP 1 [.num 2] ∧
    ∃ errs, DataValidator.validate_all (.arr [.obj [("sku", .str "S1")]]) = .ok errs ∧
      DataValidator.invalidFieldMsg "frequency" "S1" 0 ∈ errs := by
  constructor
  · exact claim_C5_frequency_error_names_sku_and_index.1 0 [.num 1] [.num 2]
  · have h := claim_C5_frequency_error_names_sku_and_index.2
      [.obj [("sku", .str "S1")]] 0 (by decide) [("sku", .str "S1")] rfl
      (Or.inl (by decide))
    simpa [DataValidator.skuDisplay, JValue.getOpt, JValue.lookupField, pyStrOf] using h

/-- C9: the validator is total — on every decoded value `validate_all`
returns a list of error strings, never a raised exception — and a list
element that is not a dict contributes exactly its own
"not a dictionary" error, with no field checks run on it. -/
theorem claim_C9_validator_total (v : JValue) :
    DataValidator.validate_all v = .ok (DataValidator.validate_allP v) ∧
    (∀ (i : ℕ) (p : JValue), p.isDict = false →
      DataValidator.recordErrors i p = .ok [DataValidator.notDictMsg i]) :=
  ⟨DataValidator.validate_all_eq v, fun i p hp => by
    simp [DataValidator.recordErrors, hp, pure, Except.pure]⟩

/-- Witness for C9 at a list containing a non-dict element. -/
theorem claim_C9_witness :
    DataValidator.validate_all (.arr [.num 5]) =
      .ok (DataValidator.validate_allP (.arr [.num 5])) ∧
    DataValidator.recordErrors 0 (.num 5) = .ok [DataValidator.notDictMsg 0] :=
  ⟨(claim_C9_validator_total (.arr [.num 5])).1,
   (claim_C9_validator_total (.arr [.num 5])).2 0 (.num 5) rfl⟩

-- =====================================================================
-- Classifier lemmas (C2, C3, C10)
-- =====================================================================

namespace WarehouseOptimizer

/-- The categorisation loop distributes every element of its input to
exactly one of the three buckets: their concatenation is a permutation
of the input. -/
theorem classifyLoop_perm (t : ℚ) :
    ∀ (l : List Product) (c : ℚ),
      ((classifyLoop t l c).1 ++ (classifyLoop t l c).2.1 ++ (classifyLoop t l c).2.2).Perm l := by
  intro l
  induction l with
  | nil => intro c; simp [classifyLoop]
  | cons p rest ih =>
    intro c
    simp only [classifyLoop]
    by_cases h1 : c + p.frequency / t ≤ A_CATEGORY_PERCENTAGE
    · simp only [if_pos h1, List.cons_append]
      exact (ih (c + p.frequency / t)).cons p
    · by_cases h2 : c + p.frequency / t ≤ B_CATEGORY_PERCENTAGE
      · simp only [if_neg h1, if_pos h2]
        refine List.Perm.trans ?_ ((ih (c + p.frequency / t)).cons p)
        simp [List.append_assoc]
      · simp only [if_neg h1, if_neg h2]
        refine List.Perm.trans ?_ ((ih (c + p.frequency / t)).cons p)
        have h3 := @List.perm_middle Product p
          ((classifyLoop t rest (c + p.frequency / t)).1 ++
            (classifyLoop t rest (c + p.frequency / t)).2.1)
          ((classifyLoop t rest (c + p.frequency / t)).2.2)
        simpa [List.append_assoc] using h3

/-- Positional characterisation of the categorisation loop: starting
from accumulator `c`, the element at 0-based position `i` of `l` lands
in A iff `c` plus the cumulative share through `i` is `≤` the
A-threshold, in B iff it exceeds that but is `≤` the B-threshold, and
in C otherwise. -/
theorem classifyLoop_eq_filterIdx (t : ℚ) :
    ∀ (l : List Product) (c : ℚ),
      classifyLoop t l c =
        (filterIdx (fun i => decide (c + cumShare l t i ≤ A_CATEGORY_PERCENTAGE)) l,
         filterIdx (fun i => decide (¬(c + cumShare l t i ≤ A_CATEGORY_PERCENTAGE) ∧
            c + cumShare l t i ≤ B_CATEGORY_PERCENTAGE)) l,
         filterIdx (fun i => decide (¬(c + cumShare l t i ≤ B_CATEGORY_PERCENTAGE))) l) := by
  intro l
  induction l with
  | nil => intro c; simp [classifyLoop, filterIdx]
  | cons p rest ih =>
    intro c
    have hc0 : cumShare (p :: rest) t 0 = p.frequency / t := by
      simp [cumShare]
    have hcs : ∀ i : ℕ, cumShare (p :: rest) t (i + 1) =
        p.frequency / t + cumShare rest t i := by
      intro i
      simp only [cumShare, List.take_succ_cons, List.map_cons, List.sum_cons]
      exact add_div _ _ _
    simp only [classifyLoop, filterIdx, hc0, hcs, ← add_assoc]
    rw [ih (c + p.frequency / t)]
    by_cases h1 : c + p.frequency / t ≤ A_CATEGORY_PERCENTAGE
    · have h2 : c + p.frequency / t ≤ B_CATEGORY_PERCENTAGE :=
        le_trans h1 (by norm_num [A_CATEGORY_PERCENTAGE, B_CATEGORY_PERCENTAGE])
      simp [h1, h2]
    · by_cases h2 : c + p.frequency / t ≤ B_CATEGORY_PERCENTAGE
      · simp [h1, h2]
      · simp [h1, h2]

end WarehouseOptimizer

namespace WarehouseOptimizer

/-- Evaluation form of `run_abc_analysis` when both guards pass. -/
theorem run_abc_analysis_eq (products : List Product) (hne : products ≠ [])
    (htot : (products.map Product.frequency).sum ≠ 0) :
    run_abc_analysis products =
      some ⟨(classifyLoop ((products.map Product.frequency).sum)
          (products.mergeSort freqDesc) 0).1,
        (classifyLoop ((products.map Product.frequency).sum)
          (products.mergeSort freqDesc) 0).2.1,
        (classifyLoop ((products.map Product.frequency).sum)
          (products.mergeSort freqDesc) 0).2.2⟩ := by
  simp [run_abc_analysis, hne, htot]

end WarehouseOptimizer

/-- C2: for every non-empty product list with positive total
frequency, `run_abc_analysis` yields buckets whose concatenation is a
permutation of the input (every record in exactly one bucket, none
dropped, none duplicated); when the input has no duplicate records the
buckets are also pairwise disjoint. -/
theorem claim_C2_buckets_partition_input (products : List Product)
    (hne : products ≠ [])
    (hpos : 0 < (products.map Product.frequency).sum) :
    ∃ cats : WarehouseOptimizer.Categories,
      WarehouseOptimizer.run_abc_analysis products = some cats ∧
      (cats.categoryA ++ cats.categoryB ++ cats.categoryC).Perm products ∧
      (products.Nodup →
        cats.categoryA.Disjoint cats.categoryB ∧
        cats.categoryA.Disjoint cats.categoryC ∧
        cats.categoryB.Disjoint cats.categoryC) := by
  open WarehouseOptimizer in
  refine ⟨⟨(classifyLoop ((products.map Product.frequency).sum)
      (products.mergeSort freqDesc) 0).1,
    (classifyLoop ((products.map Product.frequency).sum)
      (products.mergeSort freqDesc) 0).2.1,
    (classifyLoop ((products.map Product.frequency).sum)
      (products.mergeSort freqDesc) 0).2.2⟩,
    WarehouseOptimizer.run_abc_analysis_eq products hne (ne_of_gt hpos), ?_, ?_⟩
  · exact (WarehouseOptimizer.classifyLoop_perm _ _ 0).trans
      (List.mergeSort_perm products WarehouseOptimizer.freqDesc)
  · intro hnd
    have hperm := (WarehouseOptimizer.classifyLoop_perm
        ((products.map Product.frequency).sum) (products.mergeSort WarehouseOptimizer.freqDesc)
        0).trans (List.mergeSort_perm products WarehouseOptimizer.freqDesc)
    have hnd2 := (hperm.nodup_iff).2 hnd
    rw [List.append_assoc] at hnd2
    rcases List.nodup_append.1 hnd2 with ⟨hA, hBC, hdisj⟩
    rcases List.disjoint_append_right.1 hdisj with ⟨hAB, hAC⟩
    rcases List.nodup_append.1 hBC with ⟨hB, hC, hBCd⟩
    exact ⟨hAB, hAC, hBCd⟩

/-- Witness for C2 at a concrete two-product input. -/
theorem claim_C2_witness :
    ∃ cats : WarehouseOptimizer.Categories,
      WarehouseOptimizer.run_abc_analysis
          [sampleProduct "A1" 3 1, sampleProduct "B2" 1 1] = some cats ∧
      (cats.categoryA ++ cats.categoryB ++ cats.categoryC).Perm
        [sampleProduct "A1" 3 1, sampleProduct "B2" 1 1] ∧
      ([sampleProduct "A1" 3 1, sampleProduct "B2" 1 1].Nodup →
        cats.categoryA.Disjoint cats.categoryB ∧
        cats.categoryA.Disjoint cats.categoryC ∧
        cats.categoryB.Disjoint cats.categoryC) :=
  claim_C2_buckets_partition_input _ (by simp) (by norm_num [sampleProduct])

/-- C3: the classifier sorts by frequency descending and assigns each
record by its running cumulative share, boundary comparison inclusive:
position `i` of the sorted list lands in A iff the share through `i`
is `≤ 80/100`, in B iff it exceeds that and is `≤ 95/100`, and in C
otherwise; and on frequencies `[100, 50, 10]` the three records are
classified A, B and C respectively. -/
theorem claim_C3_threshold_rule_and_example :
    (∀ (products : List Product), products ≠ [] →
      (products.map Product.frequency).sum ≠ 0 →
      WarehouseOptimizer.run_abc_analysis products = some
        ⟨WarehouseOptimizer.filterIdx (fun i =>
            decide (WarehouseOptimizer.cumShare
              (products.mergeSort WarehouseOptimizer.freqDesc)
              ((products.map Product.frequency).sum) i ≤ 80/100))
            (products.mergeSort WarehouseOptimizer.freqDesc),
         WarehouseOptimizer.filterIdx (fun i =>
            decide (¬(WarehouseOptimizer.cumShare
              (products.mergeSort WarehouseOptimizer.freqDesc)
              ((products.map Product.frequency).sum) i ≤ 80/100) ∧
              WarehouseOptimizer.cumShare
                (products.mergeSort WarehouseOptimizer.freqDesc)
                ((products.map Product.frequency).sum) i ≤ 95/100))
            (products.mergeSort WarehouseOptimizer.freqDesc),
         WarehouseOptimizer.filterIdx (fun i =>
            decide (¬(WarehouseOptimizer.cumShare
              (products.mergeSort WarehouseOptimizer.freqDesc)
              ((products.map Product.frequency).sum) i ≤ 95/100)))
            (products.mergeSort WarehouseOptimizer.freqDesc)⟩) ∧
    WarehouseOptimizer.run_abc_analysis
        [sampleProduct "SKU-100" 100 10, sampleProduct "SKU-050" 50 10,
         sampleProduct "SKU-010" 10 10] =
      some ⟨[sampleProduct "SKU-100" 100 10], [sampleProduct "SKU-050" 50 10],
        [sampleProduct "SKU-010" 10 10]⟩ := by
  constructor
  · intro products hne htot
    have h := WarehouseOptimizer.classifyLoop_eq_filterIdx
      ((products.map Product.frequency).sum)
      (products.mergeSort WarehouseOptimizer.freqDesc) 0
    simp only [zero_add] at h
    rw [WarehouseOptimizer.run_abc_analysis_eq products hne htot, h]
    norm_num [A_CATEGORY_PERCENTAGE, B_CATEGORY_PERCENTAGE]
  · have hs : ([sampleProduct "SKU-100" 100 10, sampleProduct "SKU-050" 50 10,
        sampleProduct "SKU-010" 10 10] : List Product).mergeSort
          WarehouseOptimizer.freqDesc =
        [sampleProduct "SKU-100" 100 10, sampleProduct "SKU-050" 50 10,
          sampleProduct "SKU-010" 10 10] :=
      List.mergeSort_of_sorted
        (by norm_num [WarehouseOptimizer.freqDesc, sampleProduct, List.Pairwise])
    rw [WarehouseOptimizer.run_abc_analysis_eq _ (by simp) (by norm_num [sampleProduct])]
    rw [hs]
    norm_num [WarehouseOptimizer.classifyLoop, sampleProduct,
      A_CATEGORY_PERCENTAGE, B_CATEGORY_PERCENTAGE]

/-- Witness for C3's general part at a concrete one-product input. -/
theorem claim_C3_witness :
    WarehouseOptimizer.run_abc_analysis [sampleProduct "W1" 5 1] = some
      ⟨WarehouseOptimizer.filterIdx (fun i =>
          decide (WarehouseOptimizer.cumShare
            (([sampleProduct "W1" 5 1] : List Product).mergeSort WarehouseOptimizer.freqDesc)
            ((([sampleProduct "W1" 5 1] : List Product).map Product.frequency).sum) i ≤ 80/100))
          (([sampleProduct "W1" 5 1] : List Product).mergeSort WarehouseOptimizer.freqDesc),
       WarehouseOptimizer.filterIdx (fun i =>
          decide (¬(WarehouseOptimizer.cumShare
            (([sampleProduct "W1" 5 1] : List Product).mergeSort WarehouseOptimizer.freqDesc)
            ((([sampleProduct "W1" 5 1] : List Product).map Product.frequency).sum) i ≤ 80/100) ∧
            WarehouseOptimizer.cumShare
              (([sampleProduct "W1" 5 1] : List Product).mergeSort WarehouseOptimizer.freqDesc)
              ((([sampleProduct "W1" 5 1] : List Product).map Product.frequency).sum) i ≤ 95/100))
          (([sampleProduct "W1" 5 1] : List Product).mergeSort WarehouseOptimizer.freqDesc),
       WarehouseOptimizer.filterIdx (fun i =>
          decide (¬(WarehouseOptimizer.cumShare
            (([sampleProduct "W1" 5 1] : List Product).mergeSort WarehouseOptimizer.freqDesc)
            ((([sampleProduct "W1" 5 1] : List Product).map Product.frequency).sum) i ≤ 95/100)))
          (([sampleProduct "W1" 5 1] : List Product).mergeSort WarehouseOptimizer.freqDesc)⟩ :=
  claim_C3_threshold_rule_and_example.1 _ (by simp) (by norm_num [sampleProduct])

/-- C10: a single-product input with positive frequency has cumulative
share 1 at its only record, which exceeds the B-threshold, so buckets
A and B are empty and the top-ranked product lands in bucket C. -/
theorem claim_C10_single_product_lands_in_C (p : Product) (hf : 0 < p.frequency) :
    WarehouseOptimizer.run_abc_analysis [p] = some ⟨[], [], [p]⟩ := by
  have hs : ([p] : List Product).mergeSort WarehouseOptimizer.freqDesc = [p] :=
    List.mergeSort_singleton p
  have htot : (([p] : List Product).map Product.frequency).sum = p.frequency := by simp
  rw [WarehouseOptimizer.run_abc_analysis_eq [p] (by simp) (by simp [hf.ne'])]
  rw [hs, htot]
  have h1 : p.frequency / p.frequency = 1 := div_self hf.ne'
  simp [WarehouseOptimizer.classifyLoop, h1,
    A_CATEGORY_PERCENTAGE, B_CATEGORY_PERCENTAGE]
  norm_num

/-- Witness for C10 at a concrete single-product input. -/
theorem claim_C10_witness :
    WarehouseOptimizer.run_abc_analysis [sampleProduct "X1" 42 1] =
      some ⟨[], [], [sampleProduct "X1" 42 1]⟩ :=
  claim_C10_single_product_lands_in_C _ (by norm_num [sampleProduct])

/-- C1 (refuting the claim as stated — the code has a slip): on the
spec's degenerate example (single product, frequency 0, unit cost 10)
the input validates cleanly, `run_abc_analysis` returns early leaving
`self.categories` as the empty dict, and `calculate_all_metrics` is
still invoked, so `self.categories['categoryA']` raises
`KeyError('categoryA')` which escapes `run`.  No output file is
written (the error precedes `save_results_to_file`), but the claim
that no exception propagates past `run` is false. -/
theorem claim_C1_degenerate_input_raises_keyerror :
    DataValidator.validate_all degenerateInput = .ok [] ∧
    WarehouseOptimizer.run degenerateInput = .error (.keyError "categoryA") := by
  have hv : DataValidator.validate_all degenerateInput = Except.ok [] := by
    rw [DataValidator.validate_all_eq]
    simp [DataValidator.validate_allP, DataValidator.check_overall_format, JValue.isList,
      DataValidator.check_product_fieldsP, DataValidator.recordErrorsP,
      DataValidator.required_keys, DataValidator.validate_numerical_fieldsP,
      DataValidator.numericOkB, DataValidator.skuDisplay, degenerateInput, JValue.getD,
      JValue.getOpt, JValue.lookupField, JValue.hasKey, JValue.isDict, JValue.isNumeric,
      JValue.numVal, pure, Except.pure]
  refine ⟨hv, ?_⟩
  simp only [degenerateInput] at hv
  simp [WarehouseOptimizer.run, WarehouseOptimizer.load_data, hv, degenerateInput,
    WarehouseOptimizer.run_abc_analysis, toProduct, JValue.getD, JValue.getOpt,
    JValue.lookupField, JValue.numVal, pyStrOf, WarehouseOptimizer.calc_distance_metrics_run,
    pure, Except.pure, throw, throwThe, MonadExcept.throw, Except.bind, bind]

-- =====================================================================
-- Inventory metrics: `ceilSqrtNat` agrees with `⌈Real.sqrt ·⌉₊` (C6)
-- =====================================================================

theorem ceilSqrtNat_eq_ceil_sqrt (q : ℚ) :
    ceilSqrtNat q = ⌈Real.sqrt (q : ℝ)⌉₊ := by
  have hfind := Nat.find_spec (ceilSqrt_exists q)
  apply le_antisymm
  · -- the least `n` with `q ≤ n ^ 2` is at most `⌈√q⌉₊`
    apply Nat.find_le
    rcases le_or_lt q 0 with hq | hq
    · exact le_trans hq (by positivity)
    · have h1 : Real.sqrt (q : ℝ) ≤ (⌈Real.sqrt (q : ℝ)⌉₊ : ℝ) := Nat.le_ceil _
      have h2 : (q : ℝ) ≤ ((⌈Real.sqrt (q : ℝ)⌉₊ : ℝ)) ^ 2 := by
        have := pow_le_pow_left₀ (Real.sqrt_nonneg (q : ℝ)) h1 2
        rwa [Real.sq_sqrt (by exact_mod_cast hq.le)] at this
      exact_mod_cast h2
  · -- `⌈√q⌉₊` is at most the least such `n`
    rw [Nat.ceil_le]
    have h2 : (q : ℝ) ≤ ((Nat.find (ceilSqrt_exists q) : ℝ)) ^ 2 := by
      exact_mod_cast hfind
    calc Real.sqrt (q : ℝ)
        ≤ Real.sqrt (((Nat.find (ceilSqrt_exists q) : ℝ)) ^ 2) := Real.sqrt_le_sqrt h2
      _ = (Nat.find (ceilSqrt_exists q) : ℝ) := Real.sqrt_sq (by positivity)

/-- C6: EOQ and safety stock are (non-negative) natural numbers
obtained by ceiling; EOQ is `⌈√(2·frequency·50 / (unit_cost·0.15))⌉`
when `unit_cost > 0`, and exactly 0 when `unit_cost = 0` (the guard
avoids the division by zero); safety stock is
`⌈1.645 · (frequency/365 · 0.2) · √7⌉` for non-negative frequency. -/
theorem claim_C6_inventory_metrics (p : Product) :
    (p.unit_cost = 0 → (WarehouseOptimizer.inventoryFor p).eoq = 0) ∧
    (0 < p.unit_cost → (WarehouseOptimizer.inventoryFor p).eoq =
      ⌈Real.sqrt ((2 * (p.frequency : ℝ) * 50) / ((p.unit_cost : ℝ) * 0.15))⌉₊) ∧
    (0 ≤ p.frequency → (WarehouseOptimizer.inventoryFor p).safety_stock =
      ⌈(1.645 : ℝ) * (((p.frequency : ℝ) / 365) * 0.2) * Real.sqrt 7⌉₊) := by
  refine ⟨?_, ?_, ?_⟩
  · intro h0
    simp [WarehouseOptimizer.inventoryFor, h0]
  · intro hpos
    have hH : 0 < p.unit_cost * ANNUAL_HOLDING_COST_PERCENTAGE := by
      have : (0:ℚ) < ANNUAL_HOLDING_COST_PERCENTAGE := by
        norm_num [ANNUAL_HOLDING_COST_PERCENTAGE]
      positivity
    simp only [WarehouseOptimizer.inventoryFor, if_pos hH]
    rw [ceilSqrtNat_eq_ceil_sqrt]
    congr 1
    rw [show ((2 * p.frequency * COST_PER_ORDER /
        (p.unit_cost * ANNUAL_HOLDING_COST_PERCENTAGE) : ℚ) : ℝ) =
      (2 * (p.frequency : ℝ) * 50) / ((p.unit_cost : ℝ) * 0.15) by
        push_cast [COST_PER_ORDER, ANNUAL_HOLDING_COST_PERCENTAGE]
        norm_num]
  · intro hf
    have hc : (0:ℚ) ≤ (1645/1000) * ((p.frequency / 365) * DEMAND_VARIABILITY_FACTOR) := by
      have : (0:ℚ) ≤ DEMAND_VARIABILITY_FACTOR := by
        norm_num [DEMAND_VARIABILITY_FACTOR]
      positivity
    simp only [WarehouseOptimizer.inventoryFor]
    rw [ceilSqrtNat_eq_ceil_sqrt]
    congr 1
    have hcast : ((7 * ((1645/1000) * ((p.frequency / 365) * DEMAND_VARIABILITY_FACTOR)) ^ 2 : ℚ) : ℝ) =
        7 * (((1645/1000) * (((p.frequency : ℝ) / 365) * (2/10))) ^ 2) := by
      push_cast [DEMAND_VARIABILITY_FACTOR]
      ring
    rw [hcast]
    have hcR : (0:ℝ) ≤ (1645/1000) * (((p.frequency : ℝ) / 365) * (2/10)) := by
      have : (0:ℝ) ≤ (p.frequency : ℝ) := by exact_mod_cast hf
      positivity
    rw [show (7 : ℝ) * (((1645/1000) * (((p.frequency : ℝ) / 365) * (2/10))) ^ 2) =
        ((1645/1000) * (((p.frequency : ℝ) / 365) * (2/10))) ^ 2 * 7 by ring]
    rw [Real.sqrt_mul (by positivity) 7, Real.sqrt_sq hcR]
    norm_num

/-- Witness for C6 at two concrete products: one with `unit_cost = 0`
(and frequency 0), one with positive unit cost and frequency. -/
theorem claim_C6_witness :
    (WarehouseOptimizer.inventoryFor (sampleProduct "Z0" 0 0)).eoq = 0 ∧
    (WarehouseOptimizer.inventoryFor (sampleProduct "Z1" 100 1)).eoq =
      ⌈Real.sqrt ((2 * ((sampleProduct "Z1" 100 1).frequency : ℝ) * 50) /
        (((sampleProduct "Z1" 100 1).unit_cost : ℝ) * 0.15))⌉₊ ∧
    (WarehouseOptimizer.inventoryFor (sampleProduct "Z1" 100 1)).safety_stock =
      ⌈(1.645 : ℝ) * ((((sampleProduct "Z1" 100 1).frequency : ℝ) / 365) * 0.2) *
        Real.sqrt 7⌉₊ :=
  ⟨(claim_C6_inventory_metrics (sampleProduct "Z0" 0 0)).1 (by norm_num [sampleProduct]),
   (claim_C6_inventory_metrics (sampleProduct "Z1" 100 1)).2.1 (by norm_num [sampleProduct]),
   (claim_C6_inventory_metrics (sampleProduct "Z1" 100 1)).2.2 (by norm_num [sampleProduct])⟩

-- =====================================================================
-- Distance metrics lemmas (C7)
-- =====================================================================

namespace WarehouseOptimizer

/-- The enumerated sum of `_calculate_distance_metrics` in closed
form over positions. -/
theorem original_distance_from_eq :
    ∀ (l : List Product) (k : ℕ),
      original_distance_from k l =
        ∑ i ∈ Finset.range l.length,
          (((k + i : ℕ) : ℚ) + 1) * 2 * ((l.getD i default).frequency) := by
  intro l
  induction l with
  | nil => intro k; simp [original_distance_from]
  | cons p rest ih =>
    intro k
    rw [show original_distance_from k (p :: rest) =
      ((k : ℚ) + 1) * 2 * p.frequency + original_distance_from (k + 1) rest from rfl]
    rw [ih (k + 1), List.length_cons, Finset.sum_range_succ']
    simp only [List.getD_cons_succ, List.getD_cons_zero, Nat.add_zero]
    rw [add_comm]
    congr 1
    apply Finset.sum_congr rfl
    intro i _
    push_cast
    ring

theorem zoneSum_eq (d : ℚ) (l : List Product) :
    zoneSum d l = (l.map Product.frequency).sum * d := by
  induction l with
  | nil => simp [zoneSum]
  | cons p rest ih =>
    simp only [zoneSum, List.map_cons, List.sum_cons] at ih ⊢
    rw [ih, add_mul]

end WarehouseOptimizer

/-- C7: the distance metrics satisfy: original distance is the
1-indexed positional sum `Σ (i+1)·2·frequency` over the input order;
optimized distance weighs each bucket's total frequency by the zone
distances 5/15/30; saved is their difference; and the efficiency
improvement is `saved/original·100` when the original distance is
positive and exactly 0 when it is 0. -/
theorem claim_C7_distance_metrics (products : List Product)
    (cats : WarehouseOptimizer.Categories) :
    (WarehouseOptimizer.calc_distance_metrics products cats).original_distance =
      (∑ i ∈ Finset.range products.length,
        (((i : ℚ) + 1) * 2) * ((products.getD i default).frequency)) ∧
    (WarehouseOptimizer.calc_distance_metrics products cats).optimized_distance =
      (cats.categoryA.map Product.frequency).sum * 5 +
      (cats.categoryB.map Product.frequency).sum * 15 +
      (cats.categoryC.map Product.frequency).sum * 30 ∧
    (WarehouseOptimizer.calc_distance_metrics products cats).distance_saved =
      (WarehouseOptimizer.calc_distance_metrics products cats).original_distance -
      (WarehouseOptimizer.calc_distance_metrics products cats).optimized_distance ∧
    (0 < (WarehouseOptimizer.calc_distance_metrics products cats).original_distance →
      (WarehouseOptimizer.calc_distance_metrics products cats).efficiency_improvement =
        (WarehouseOptimizer.calc_distance_metrics products cats).distance_saved /
          (WarehouseOptimizer.calc_distance_metrics products cats).original_distance * 100) ∧
    ((WarehouseOptimizer.calc_distance_metrics products cats).original_distance = 0 →
      (WarehouseOptimizer.calc_distance_metrics products cats).efficiency_improvement = 0) := by
  refine ⟨?_, ?_, rfl, ?_, ?_⟩
  · show WarehouseOptimizer.original_distance_from 0 products = _
    rw [WarehouseOptimizer.original_distance_from_eq]
    apply Finset.sum_congr rfl
    intro i _
    simp [Nat.zero_add]
  · show WarehouseOptimizer.zoneSum ZONE_A_DISTANCE_M cats.categoryA +
      WarehouseOptimizer.zoneSum ZONE_B_DISTANCE_M cats.categoryB +
      WarehouseOptimizer.zoneSum ZONE_C_DISTANCE_M cats.categoryC = _
    simp [WarehouseOptimizer.zoneSum_eq, ZONE_A_DISTANCE_M, ZONE_B_DISTANCE_M,
      ZONE_C_DISTANCE_M]
  · intro h
    simp only [WarehouseOptimizer.calc_distance_metrics] at h ⊢
    rw [if_pos h]
  · intro h0
    simp only [WarehouseOptimizer.calc_distance_metrics] at h0 ⊢
    rw [h0]
    simp

/-- Witness for C7: a one-product input with positive frequency
(discharging the positive-original-distance hypothesis) and one with
frequency 0 (discharging the zero-original-distance hypothesis). -/
theorem claim_C7_witness :
    (0 < (WarehouseOptimizer.calc_distance_metrics [sampleProduct "A1" 10 1]
        ⟨[sampleProduct "A1" 10 1], [], []⟩).original_distance ∧
      (WarehouseOptimizer.calc_distance_metrics [sampleProduct "A1" 10 1]
        ⟨[sampleProduct "A1" 10 1], [], []⟩).efficiency_improvement =
        (WarehouseOptimizer.calc_distance_metrics [sampleProduct "A1" 10 1]
          ⟨[sampleProduct "A1" 10 1], [], []⟩).distance_saved /
          (WarehouseOptimizer.calc_distance_metrics [sampleProduct "A1" 10 1]
            ⟨[sampleProduct "A1" 10 1], [], []⟩).original_distance * 100) ∧
    ((WarehouseOptimizer.calc_distance_metrics [sampleProduct "A0" 0 1]
        ⟨[], [], [sampleProduct "A0" 0 1]⟩).original_distance = 0 ∧
      (WarehouseOptimizer.calc_distance_metrics [sampleProduct "A0" 0 1]
        ⟨[], [], [sampleProduct "A0" 0 1]⟩).efficiency_improvement = 0) := by
  have h1 : 0 < (WarehouseOptimizer.calc_distance_metrics [sampleProduct "A1" 10 1]
      ⟨[sampleProduct "A1" 10 1], [], []⟩).original_distance := by
    norm_num [WarehouseOptimizer.calc_distance_metrics,
      WarehouseOptimizer.original_distance_from, sampleProduct]
  have h0 : (WarehouseOptimizer.calc_distance_metrics [sampleProduct "A0" 0 1]
      ⟨[], [], [sampleProduct "A0" 0 1]⟩).original_distance = 0 := by
    norm_num [WarehouseOptimizer.calc_distance_metrics,
      WarehouseOptimizer.original_distance_from, sampleProduct]
  exact ⟨⟨h1, (claim_C7_distance_metrics _ _).2.2.2.1 h1⟩,
    ⟨h0, (claim_C7_distance_metrics _ _).2.2.2.2 h0⟩⟩

-- =====================================================================
-- Report assembly (C8)
-- =====================================================================

namespace WarehouseOptimizer

theorem skuAsc_trans (a b c : Product) (hab : skuAsc a b = true)
    (hbc : skuAsc b c = true) : skuAsc a c = true := by
  simp only [skuAsc, decide_eq_true_eq] at hab hbc ⊢
  exact le_trans hab hbc

theorem skuAsc_total (a b : Product) : (skuAsc a b || skuAsc b a) = true := by
  simp only [skuAsc, Bool.or_eq_true, decide_eq_true_eq]
  exact le_total a.sku b.sku

end WarehouseOptimizer

/-- C8: the report's layouts are two views of the same product set
with no recomputation: `original` is a permutation of the product
list, sorted by SKU ascending; `optimized` and `abc_analysis` are
exactly the classifier's bucket sequences, and every other field is
passed through unchanged. -/
theorem claim_C8_report_layouts (products : List Product)
    (cats : WarehouseOptimizer.Categories) (dm : WarehouseOptimizer.DistanceMetrics)
    (fm : WarehouseOptimizer.FinancialMetrics)
    (inv : List (String × WarehouseOptimizer.InventoryEntry)) :
    (WarehouseOptimizer.create_results_data products (some cats) dm fm inv).layout_original.Perm
      products ∧
    List.Sorted (fun a b : Product => a.sku ≤ b.sku)
      (WarehouseOptimizer.create_results_data products (some cats) dm fm inv).layout_original ∧
    (WarehouseOptimizer.create_results_data products (some cats) dm fm inv).layout_optimized =
      cats ∧
    (WarehouseOptimizer.create_results_data products (some cats) dm fm inv).abc_analysis =
      cats ∧
    (WarehouseOptimizer.create_results_data products (some cats) dm fm inv).inventory_metrics =
      inv ∧
    (WarehouseOptimizer.create_results_data products (some cats) dm fm inv).distance_metrics =
      dm ∧
    (WarehouseOptimizer.create_results_data products (some cats) dm fm inv).financial_metrics =
      fm := by
  refine ⟨List.mergeSort_perm products WarehouseOptimizer.skuAsc, ?_, rfl, rfl, rfl, rfl, rfl⟩
  have h := @List.sorted_mergeSort Product WarehouseOptimizer.skuAsc
    WarehouseOptimizer.skuAsc_trans WarehouseOptimizer.skuAsc_total products
  exact h.imp fun hab => by
    simpa [WarehouseOptimizer.skuAsc, decide_eq_true_eq] using hab
